import Mathlib

/-!
# Ingress operator deployment rendering

A shallow embedding of
`control-plane-operator/controllers/hostedcontrolplane/ingressoperator/ingressoperator.go`:
the parameter-collection function `NewParams` and the deployment renderer
`ReconcileDeployment`.

Conventions of the embedding.

* A Go `map[string]V` is an optional association list: `none` is the nil map,
  `some kvs` a map holding the bindings `kvs`.  Reading a key follows Go
  (`GoMap.get?`, the zero value on a miss at the call site), writing a key
  replaces the binding in place or adds one (`bindKey`).
* A Go pointer to a value is an `Option` of the value, `none` being nil.
* A function that mutates its pointer argument returns the mutated value.
* A nil dereference (a Go panic) is the result `none`.
* Types, constants and functions that the file imports from other packages are
  either record types holding the fields this file names, or fields of
  `Collaborators`.
-/

namespace ingressoperator

/-! ## Go maps -/

/-- A Go map with string keys: `none` is the nil map. -/
abbrev GoMap (V : Type) := Option (List (String × V))

/-- Assignment `m[k] = v` on the bindings of a non-nil map: the first binding
of `k` is replaced, and a binding is added when there is none. -/
def bindKey {V : Type} : List (String × V) → String → V → List (String × V)
  | [], k, v => [(k, v)]
  | (k', v') :: rest, k, v =>
    if k' = k then (k, v) :: rest else (k', v') :: bindKey rest k v

namespace GoMap

/-- Map read `m[k]` with the comma-ok result; a nil map has no binding. -/
def get? {V : Type} (m : GoMap V) (k : String) : Option V :=
  match m with
  | none => none
  | some kvs => kvs.lookup k

/-- The keys bound in the map. -/
def keys {V : Type} (m : GoMap V) : List String :=
  match m with
  | none => []
  | some kvs => kvs.map Prod.fst

end GoMap

/-- Map read `images[k]` of a `map[string]string`: the empty string when the key
is absent or the map is nil. -/
def index (m : GoMap String) (k : String) : String :=
  (m.get? k).getD ""

/-! ## The object model (k8s.io/api, k8s.io/apimachinery) -/

/-- Type `intstr.IntOrString`. -/
inductive IntOrString where
  | int (v : Int)
  | str (s : String)
deriving DecidableEq, Repr

/-- Function `intstr.FromInt`. -/
def IntOrString.FromInt (v : Int) : IntOrString := .int v

/-- Type `corev1.HTTPGetAction`. -/
structure HTTPGetAction where
  Path : String := ""
  Port : IntOrString := .int 0
  Host : String := ""
  Scheme : String := ""
deriving DecidableEq, Repr

/-- Type `corev1.ProbeHandler`; only the HTTP handler is used here. -/
structure ProbeHandler where
  HTTPGet : Option HTTPGetAction := none
deriving DecidableEq, Repr

/-- Type `corev1.Probe`. -/
structure Probe where
  ProbeHandler : ProbeHandler := {}
  InitialDelaySeconds : Int := 0
  TimeoutSeconds : Int := 0
  PeriodSeconds : Int := 0
  SuccessThreshold : Int := 0
  FailureThreshold : Int := 0
deriving DecidableEq, Repr

/-- Type `corev1.EnvVar`. -/
structure EnvVar where
  Name : String
  Value : String := ""
deriving DecidableEq, Repr

/-- Type `corev1.VolumeMount`. -/
structure VolumeMount where
  Name : String
  MountPath : String
deriving DecidableEq, Repr

/-- Type `corev1.ResourceRequirements`; a quantity is kept as the text that
`resource.MustParse` is given. -/
structure ResourceRequirements where
  Limits : GoMap String := none
  Requests : GoMap String := none
deriving DecidableEq, Repr

/-- Type `corev1.Container`, with the fields a deployment renderer sets. -/
structure Container where
  Name : String := ""
  Image : String := ""
  Command : List String := []
  Args : List String := []
  Env : List EnvVar := []
  Resources : ResourceRequirements := {}
  VolumeMounts : List VolumeMount := []
  LivenessProbe : Option Probe := none
  ReadinessProbe : Option Probe := none
  TerminationMessagePolicy : String := ""
  ImagePullPolicy : String := ""
deriving DecidableEq, Repr

/-- Type `corev1.EmptyDirVolumeSource`. -/
structure EmptyDirVolumeSource where
  Medium : String := ""
deriving DecidableEq, Repr

/-- Type `corev1.SecretVolumeSource`. -/
structure SecretVolumeSource where
  SecretName : String := ""
deriving DecidableEq, Repr

/-- Type `corev1.VolumeSource`. -/
structure VolumeSource where
  EmptyDir : Option EmptyDirVolumeSource := none
  Secret : Option SecretVolumeSource := none
deriving DecidableEq, Repr

/-- Type `corev1.Volume`. -/
structure Volume where
  Name : String
  VolumeSource : VolumeSource := {}
deriving DecidableEq, Repr

/-- Type `corev1.PodSpec`: the three fields the renderer assigns and, of the
fields it leaves alone, those its collaborators are known for. -/
structure PodSpec where
  Volumes : List Volume := []
  InitContainers : List Container := []
  Containers : List Container := []
  NodeSelector : GoMap String := none
  ServiceAccountName : String := ""
  AutomountServiceAccountToken : Option Bool := none
  PriorityClassName : String := ""
deriving DecidableEq, Repr

/-- Type `metav1.ObjectMeta`. -/
structure ObjectMeta where
  Name : String := ""
  Namespace : String := ""
  Labels : GoMap String := none
  Annotations : GoMap String := none
deriving DecidableEq, Repr

/-- Type `corev1.PodTemplateSpec`; the embedded `ObjectMeta` is spelled out, as
Go promotes its fields (`Template.Annotations`, `Template.Labels`). -/
structure PodTemplateSpec where
  Name : String := ""
  Namespace : String := ""
  Labels : GoMap String := none
  Annotations : GoMap String := none
  Spec : PodSpec := {}
deriving DecidableEq, Repr

/-- Type `metav1.LabelSelectorRequirement`. -/
structure LabelSelectorRequirement where
  Key : String
  Operator : String
  Values : List String
deriving DecidableEq, Repr

/-- Type `metav1.LabelSelector`. -/
structure LabelSelector where
  MatchLabels : GoMap String := none
  MatchExpressions : List LabelSelectorRequirement := []
deriving DecidableEq, Repr

/-- Type `appsv1.RollingUpdateDeployment`. -/
structure RollingUpdateDeployment where
  MaxUnavailable : Option IntOrString := none
  MaxSurge : Option IntOrString := none
deriving DecidableEq, Repr

/-- Type `appsv1.DeploymentStrategy`. -/
structure DeploymentStrategy where
  Type_ : String := ""
  RollingUpdate : Option RollingUpdateDeployment := none
deriving DecidableEq, Repr

/-- Type `appsv1.DeploymentSpec`. -/
structure DeploymentSpec where
  Replicas : Option Int := none
  Selector : Option LabelSelector := none
  Template : PodTemplateSpec := {}
  Strategy : DeploymentStrategy := {}
  MinReadySeconds : Int := 0
  RevisionHistoryLimit : Option Int := none
  Paused : Bool := false
  ProgressDeadlineSeconds : Option Int := none
deriving DecidableEq, Repr

/-- Type `appsv1.Deployment`; the embedded `ObjectMeta` is spelled out. -/
structure Deployment where
  Name : String := ""
  Namespace : String := ""
  Labels : GoMap String := none
  Annotations : GoMap String := none
  Spec : DeploymentSpec := {}
deriving DecidableEq, Repr

/-- Constant `appsv1.RecreateDeploymentStrategyType`. -/
def RecreateDeploymentStrategyType : String := "Recreate"
/-- Constant `corev1.PullIfNotPresent`. -/
def PullIfNotPresent : String := "IfNotPresent"
/-- Constant `corev1.TerminationMessageFallbackToLogsOnError`. -/
def TerminationMessageFallbackToLogsOnError : String := "FallbackToLogsOnError"
/-- Constant `corev1.URISchemeHTTP`. -/
def URISchemeHTTP : String := "HTTP"
/-- Constant `corev1.ResourceCPU`. -/
def ResourceCPU : String := "cpu"
/-- Constant `corev1.ResourceMemory`. -/
def ResourceMemory : String := "memory"

/-! ## This package -/

/-- Constant `ingressOperatorContainerName`. -/
def ingressOperatorContainerName : String := "ingress-operator"
/-- Constant `ingressOperatorMetricsPort`. -/
def ingressOperatorMetricsPort : Int := 60000

/-- The call `fmt.Sprintf("0.0.0.0:%d", n)`: the decimal rendering of `n` after
the literal text. -/
def sprintfListenAddr (n : Int) : String := "0.0.0.0:" ++ toString n

/-- Type `hyperv1.HostedControlPlane`; this package reads its `ObjectMeta` and
hands the whole value to the setters of `config.DeploymentConfig`. -/
structure HostedControlPlane where
  ObjectMeta : ObjectMeta := {}
deriving DecidableEq, Repr

/-- Type `config.Scheduling`, with the field this package assigns. -/
structure Scheduling where
  PriorityClass : String := ""
deriving DecidableEq, Repr

/-- Type `config.DeploymentConfig` (package `support/config`), with the fields
this package assigns; `AdditionalAnnotations` stands for what the setters keep
for themselves. -/
structure DeploymentConfig where
  Replicas : Int := 0
  Scheduling : Scheduling := {}
  AdditionalAnnotations : GoMap String := none
  SetDefaultSecurityContext : Bool := false
  LivenessProbes : GoMap Probe := none
  ReadinessProbes : GoMap Probe := none
deriving DecidableEq, Repr

/-- Type `Params`. -/
structure Params where
  IngressOperatorImage : String := ""
  HAProxyRouterImage : String := ""
  KubeRBACProxyImage : String := ""
  ReleaseVersion : String := ""
  TokenMinterImage : String := ""
  AvailabilityProberImage : String := ""
  DeploymentConfig : DeploymentConfig := {}
deriving DecidableEq, Repr

/-- Type `schema.GroupVersionKind`. -/
structure GroupVersionKind where
  Group : String
  Version : String
  Kind : String
deriving DecidableEq, Repr

/-- Type `util.AvailabilityProberOpts`, with the fields this package assigns. -/
structure AvailabilityProberOpts where
  KubeconfigVolumeName : String := ""
  RequiredAPIs : List GroupVersionKind := []
deriving DecidableEq, Repr

/-- What this file imports from the packages `support/config`, `support/util`,
`kas` and `manifests`: constants and functions whose code lies outside of it. -/
structure Collaborators where
  /-- Constant `config.DefaultPriorityClass`. -/
  DefaultPriorityClass : String
  /-- Constant `util.AvailabilityProberImageName`. -/
  AvailabilityProberImageName : String
  /-- Method `(*DeploymentConfig).SetColocation`. -/
  SetColocation : DeploymentConfig → HostedControlPlane → DeploymentConfig
  /-- Method `(*DeploymentConfig).SetRestartAnnotation`. -/
  SetRestartAnnotation : DeploymentConfig → ObjectMeta → DeploymentConfig
  /-- Method `(*DeploymentConfig).SetControlPlaneIsolation`. -/
  SetControlPlaneIsolation : DeploymentConfig → HostedControlPlane → DeploymentConfig
  /-- The name of `manifests.IngressOperatorKubeconfig("")`. -/
  IngressOperatorKubeconfigName : String
  /-- Function `kas.InClusterKASReadyURL`. -/
  InClusterKASReadyURL : String → Option Int → String
  /-- Function `util.AvailabilityProber`, given the target, the image, the pod
  spec and the option setter. -/
  AvailabilityProber :
    String → String → PodSpec → (AvailabilityProberOpts → AvailabilityProberOpts) → PodSpec
  /-- Method `(*DeploymentConfig).ApplyTo`. -/
  ApplyTo : DeploymentConfig → Deployment → Deployment

/-- Function `NewParams`.  The pointer `hcp` is dereferenced (`hcp.ObjectMeta`),
so a nil `hcp` panics: the result is `none`. -/
def NewParams (ext : Collaborators) (hcp : Option HostedControlPlane) (version : String)
    (images : GoMap String) (setDefaultSecurityContext : Bool) : Option Params :=
  match hcp with
  | none => none
  | some h =>
    let p : Params := {
      IngressOperatorImage := index images "cluster-ingress-operator"
      HAProxyRouterImage := index images "haproxy-router"
      ReleaseVersion := version
      TokenMinterImage := index images "token-minter"
      AvailabilityProberImage := index images ext.AvailabilityProberImageName }
    let c := p.DeploymentConfig
    let c := { c with Scheduling := { c.Scheduling with PriorityClass := ext.DefaultPriorityClass } }
    let c := ext.SetColocation c h
    let c := ext.SetRestartAnnotation c h.ObjectMeta
    let c := ext.SetControlPlaneIsolation c h
    let c := { c with Replicas := 1 }
    let c := { c with SetDefaultSecurityContext := setDefaultSecurityContext }
    let c := { c with ReadinessProbes := some [
      (ingressOperatorContainerName, {
        ProbeHandler := {
          HTTPGet := some {
            Path := "/metrics"
            Port := IntOrString.FromInt ingressOperatorMetricsPort
            Scheme := URISchemeHTTP } }
        InitialDelaySeconds := 15
        PeriodSeconds := 60
        SuccessThreshold := 1
        FailureThreshold := 3
        TimeoutSeconds := 5 })] }
    let c := { c with LivenessProbes := some [
      (ingressOperatorContainerName, {
        ProbeHandler := {
          HTTPGet := some {
            Path := "/metrics"
            Port := IntOrString.FromInt ingressOperatorMetricsPort
            Scheme := URISchemeHTTP } }
        InitialDelaySeconds := 60
        PeriodSeconds := 60
        SuccessThreshold := 1
        FailureThreshold := 5
        TimeoutSeconds := 5 })] }
    some { p with DeploymentConfig := c }

/-- The guarded map write of `ReconcileDeployment`:
`if m == nil { m = map[string]string{} }; m[k] = v`. -/
def ensureAndSet (m : GoMap String) (k v : String) : GoMap String :=
  match m with
  | none => some (bindKey [] k v)
  | some kvs => some (bindKey kvs k v)

/-- The containers that `ReconcileDeployment` assigns to the pod spec. -/
def reconcileContainers (params : Params) : List Container := [
  { Command := [
      "ingress-operator",
      "start",
      "--namespace",
      "openshift-ingress-operator",
      "--image",
      "$(IMAGE)",
      "--canary-image",
      "$(CANARY_IMAGE)",
      "--release-version",
      "$(RELEASE_VERSION)",
      "--metrics-listen-addr",
      sprintfListenAddr ingressOperatorMetricsPort]
    Env := [
      { Name := "RELEASE_VERSION", Value := params.ReleaseVersion },
      { Name := "IMAGE", Value := params.HAProxyRouterImage },
      { Name := "CANARY_IMAGE", Value := params.IngressOperatorImage },
      { Name := "KUBECONFIG", Value := "/etc/kubernetes/kubeconfig" }]
    Name := ingressOperatorContainerName
    Image := params.IngressOperatorImage
    ImagePullPolicy := PullIfNotPresent
    Resources := { Requests := some [
      (ResourceCPU, "10m"),
      (ResourceMemory, "56Mi")] }
    TerminationMessagePolicy := TerminationMessageFallbackToLogsOnError
    VolumeMounts := [
      { Name := "ingress-operator-kubeconfig", MountPath := "/etc/kubernetes" },
      { Name := "serviceaccount-token", MountPath := "/var/run/secrets/openshift/serviceaccount" }] },
  { Name := "token-minter"
    Command := ["/usr/bin/token-minter"]
    Args := [
      "-service-account-namespace=openshift-ingress-operator",
      "-service-account-name=ingress-operator",
      "-token-file=/var/run/secrets/openshift/serviceaccount/token",
      "-kubeconfig=/etc/kubernetes/kubeconfig"]
    Image := params.TokenMinterImage
    VolumeMounts := [
      { Name := "serviceaccount-token", MountPath := "/var/run/secrets/openshift/serviceaccount" },
      { Name := "admin-kubeconfig", MountPath := "/etc/kubernetes" }] }]

/-- The volumes that `ReconcileDeployment` assigns to the pod spec. -/
def reconcileVolumes (ext : Collaborators) : List Volume := [
  { Name := "serviceaccount-token", VolumeSource := { EmptyDir := some {} } },
  { Name := "admin-kubeconfig"
    VolumeSource := { Secret := some { SecretName := "service-network-admin-kubeconfig" } } },
  { Name := "ingress-operator-kubeconfig"
    VolumeSource := { Secret := some { SecretName := ext.IngressOperatorKubeconfigName } } }]

/-- The object-population step of `ReconcileDeployment`: the assignments to
`dep.Spec` that precede the calls to `util.AvailabilityProber` and
`DeploymentConfig.ApplyTo`.  The step reads neither `apiPort` nor the
`DeploymentConfig` of `params`. -/
def populate (ext : Collaborators) (dep : Deployment) (params : Params)
    (_apiPort : Option Int) : Deployment :=
  let spec := dep.Spec
  let spec := { spec with Replicas := some 1 }
  let spec := { spec with
    Selector := some { MatchLabels := some [("name", "ingress-operator")] } }
  let spec := { spec with
    Strategy := { spec.Strategy with Type_ := RecreateDeploymentStrategyType } }
  let tmpl := spec.Template
  let tmpl := { tmpl with
    Annotations := ensureAndSet tmpl.Annotations
      "target.workload.openshift.io/management" "\x7b\"effect\": \"PreferredDuringScheduling\"\x7d" }
  let tmpl := { tmpl with Labels := ensureAndSet tmpl.Labels "name" "ingress-operator" }
  let pod := tmpl.Spec
  let pod := { pod with AutomountServiceAccountToken := some false }
  let pod := { pod with Containers := reconcileContainers params }
  let pod := { pod with Volumes := reconcileVolumes ext }
  { dep with Spec := { spec with Template := { tmpl with Spec := pod } } }

/-- The option setter that `ReconcileDeployment` hands to the availability prober. -/
def proberOpts (o : AvailabilityProberOpts) : AvailabilityProberOpts :=
  { o with
    KubeconfigVolumeName := "ingress-operator-kubeconfig"
    RequiredAPIs := [{ Group := "route.openshift.io", Version := "v1", Kind := "Route" }] }

/-- Function `ReconcileDeployment`: populate, inject the availability prober into
the pod spec, apply the deployment configuration. -/
def ReconcileDeployment (ext : Collaborators) (dep : Deployment) (params : Params)
    (apiPort : Option Int) : Deployment :=
  let dep := populate ext dep params apiPort
  let pod := ext.AvailabilityProber (ext.InClusterKASReadyURL dep.Namespace apiPort)
    params.AvailabilityProberImage dep.Spec.Template.Spec proberOpts
  let dep := { dep with Spec := { dep.Spec with Template := { dep.Spec.Template with Spec := pod } } }
  ext.ApplyTo params.DeploymentConfig dep

/-- The containers of the pod template of a deployment. -/
def containersOf (dep : Deployment) : List Container := dep.Spec.Template.Spec.Containers

/-- The volumes of the pod template of a deployment. -/
def volumesOf (dep : Deployment) : List Volume := dep.Spec.Template.Spec.Volumes

/-! ## Vocabulary of the properties -/

/-- The name `NAME` of a command element of the form `$(NAME)`. -/
def envRef? (s : String) : Option String :=
  match s.data with
  | '$' :: '(' :: rest =>
    if rest.getLast? = some ')' then some (String.mk rest.dropLast) else none
  | _ => none

/-- The file path `p` lies under the directory `dir`. -/
def underPath (dir p : String) : Bool :=
  (dir.data ++ ['/']).isPrefixOf p.data && decide (dir.data.length + 1 < p.data.length)

/-- The value of an argument of the form `flag=value`. -/
def flagValue? (flag arg : String) : Option String :=
  if (flag.data ++ ['=']).isPrefixOf arg.data then
    some (String.mk (arg.data.drop (flag.data.length + 1)))
  else none

/-- The element that follows `flag` in an argument list. -/
def argAfter (flag : String) : List String → Option String
  | a :: b :: rest => if a = flag then some b else argAfter flag (b :: rest)
  | _ => none

/-- The mount paths at which a container mounts the volume `name`. -/
def mountPathsOf (c : Container) (name : String) : List String :=
  (c.VolumeMounts.filter (fun m => m.Name = name)).map (fun m => m.MountPath)

/-- The part of a deployment spec that the population step never assigns: the
assigned fields are reset to their zero values. -/
def unassignedPart (s : DeploymentSpec) : DeploymentSpec :=
  { s with
    Replicas := none
    Selector := none
    Strategy := { s.Strategy with Type_ := "" }
    Template := { s.Template with
      Spec := { s.Template.Spec with
        AutomountServiceAccountToken := none
        Containers := []
        Volumes := [] } } }

/-- Every container of the pod template of a deployment: the init containers,
then the containers. -/
def allContainersOf (dep : Deployment) : List Container :=
  dep.Spec.Template.Spec.InitContainers ++ dep.Spec.Template.Spec.Containers

/-- Two Go maps hold the same bindings: both are nil or neither is, and every
key reads the same in both.  The order of the bindings plays no part. -/
def sameBindings {V : Type} (m1 m2 : GoMap V) : Prop :=
  m1.isSome = m2.isSome ∧ ∀ k, m1.get? k = m2.get? k

/-- A deployment spec without the annotations and labels of its pod template. -/
def withoutTemplateMeta (s : DeploymentSpec) : DeploymentSpec :=
  { s with Template := { s.Template with Labels := none, Annotations := none } }

/-- Two deployment specs are equal, the annotations and the labels of the pod
template being compared as Go maps, by their bindings. -/
def sameSpec (s1 s2 : DeploymentSpec) : Prop :=
  sameBindings s1.Template.Annotations s2.Template.Annotations ∧
    sameBindings s1.Template.Labels s2.Template.Labels ∧
    withoutTemplateMeta s1 = withoutTemplateMeta s2

/-- What the references between command, environment, arguments and mounts of a
container are made of: its name, command, arguments, environment and mounts. -/
def wiring (c : Container) :
    String × List String × List String × List EnvVar × List VolumeMount :=
  (c.Name, c.Command, c.Args, c.Env, c.VolumeMounts)

/-- The assumption on the two collaborators that run after the population step:
`util.AvailabilityProber` and `DeploymentConfig.ApplyTo` keep the container list
of the pod template, and in each container its name, command, arguments,
environment and mounts (they may set probes, resources, init containers,
scheduling and the like). -/
def PreservesWiring (ext : Collaborators) : Prop :=
  (∀ (target image : String) (pod : PodSpec)
      (f : AvailabilityProberOpts → AvailabilityProberOpts),
    (ext.AvailabilityProber target image pod f).Containers.map wiring =
      pod.Containers.map wiring) ∧
  (∀ (cfg : DeploymentConfig) (dep : Deployment),
    (containersOf (ext.ApplyTo cfg dep)).map wiring = (containersOf dep).map wiring)

/-- The references of the two rendered containers resolve: the container list is
`ingress-operator`, `token-minter`; the `$(NAME)` elements of the command of the
first are IMAGE, CANARY_IMAGE, RELEASE_VERSION, each a variable of its
environment; its KUBECONFIG path lies under its mount `/etc/kubernetes`; the
`-token-file` and `-kubeconfig` paths of the second lie under its mounts; both
mount the volume `serviceaccount-token` at the same path. -/
def ReferencesResolve (cs : List Container) : Prop :=
  ∃ op tm, cs = [op, tm] ∧
    op.Name = "ingress-operator" ∧ tm.Name = "token-minter" ∧
    op.Command.filterMap envRef? = ["IMAGE", "CANARY_IMAGE", "RELEASE_VERSION"] ∧
    (∀ n ∈ op.Command.filterMap envRef?, n ∈ op.Env.map (fun e => e.Name)) ∧
    (op.Env.filter (fun e => e.Name = "KUBECONFIG")).map (fun e => e.Value) =
      ["/etc/kubernetes/kubeconfig"] ∧
    "/etc/kubernetes" ∈ op.VolumeMounts.map (fun m => m.MountPath) ∧
    underPath "/etc/kubernetes" "/etc/kubernetes/kubeconfig" = true ∧
    tm.Args.filterMap (flagValue? "-token-file") =
      ["/var/run/secrets/openshift/serviceaccount/token"] ∧
    "/var/run/secrets/openshift/serviceaccount" ∈ tm.VolumeMounts.map (fun m => m.MountPath) ∧
    underPath "/var/run/secrets/openshift/serviceaccount"
      "/var/run/secrets/openshift/serviceaccount/token" = true ∧
    tm.Args.filterMap (flagValue? "-kubeconfig") = ["/etc/kubernetes/kubeconfig"] ∧
    "/etc/kubernetes" ∈ tm.VolumeMounts.map (fun m => m.MountPath) ∧
    mountPathsOf op "serviceaccount-token" = ["/var/run/secrets/openshift/serviceaccount"] ∧
    mountPathsOf tm "serviceaccount-token" = mountPathsOf op "serviceaccount-token"

/-- Collaborators for concrete runs that act on the deployment: the prober adds
an init container, the configuration sets the replica count and the probes of
the containers by name. -/
def probingCollaborators : Collaborators where
  DefaultPriorityClass := "hypershift-control-plane"
  AvailabilityProberImageName := "availability-prober"
  SetColocation := fun c _ => c
  SetRestartAnnotation := fun c _ => c
  SetControlPlaneIsolation := fun c _ => c
  IngressOperatorKubeconfigName := "ingress-operator-kubeconfig"
  InClusterKASReadyURL := fun ns _ => "https://kube-apiserver." ++ ns ++ ".svc/readyz"
  AvailabilityProber := fun target image pod f =>
    { pod with
      InitContainers := pod.InitContainers ++ [
        { Name := "availability-prober"
          Image := image
          Command := ["/usr/bin/availability-prober", "--target", target]
          VolumeMounts := [{ Name := (f {}).KubeconfigVolumeName, MountPath := "/var/kubeconfig" }] }] }
  ApplyTo := fun cfg dep =>
    { dep with
      Spec := { dep.Spec with
        Replicas := some cfg.Replicas
        Template := { dep.Spec.Template with
          Spec := { dep.Spec.Template.Spec with
            Containers := dep.Spec.Template.Spec.Containers.map (fun c =>
              { c with
                LivenessProbe := cfg.LivenessProbes.get? c.Name
                ReadinessProbe := cfg.ReadinessProbes.get? c.Name }) } } } }

/-- A deployment whose pod template holds an init container that mounts a volume
of its own. -/
def initDeployment : Deployment :=
  { Name := "ingress-operator"
    Namespace := "clusters-example"
    Spec := {
      Template := {
        Spec := {
          InitContainers := [
            { Name := "setup"
              Image := "example/setup"
              VolumeMounts := [{ Name := "scratch", MountPath := "/scratch" }] }]
          Volumes := [{ Name := "scratch", VolumeSource := { EmptyDir := some {} } }] } } } }

/-- A deployment that was rendered before by other hands: empty, non-nil
annotations, a stale `name` label, and its own replicas, selector, strategy
type, containers and volumes. -/
def staleDeployment : Deployment :=
  { Spec := {
      Replicas := some 7
      Selector := some { MatchLabels := some [("name", "other")] }
      Strategy := { Type_ := "RollingUpdate" }
      Template := {
        Labels := some [("name", "other")]
        Annotations := some []
        Spec := {
          AutomountServiceAccountToken := some true
          Containers := [{ Name := "sidecar", Image := "example/sidecar" }]
          Volumes := [{ Name := "scratch" }] } } } }


/-- Collaborators that leave their argument as it is, for concrete runs. -/
def inertCollaborators : Collaborators where
  DefaultPriorityClass := "hypershift-control-plane"
  AvailabilityProberImageName := "availability-prober"
  SetColocation := fun c _ => c
  SetRestartAnnotation := fun c _ => c
  SetControlPlaneIsolation := fun c _ => c
  IngressOperatorKubeconfigName := "ingress-operator-kubeconfig"
  InClusterKASReadyURL := fun _ _ => ""
  AvailabilityProber := fun _ _ pod _ => pod
  ApplyTo := fun _ dep => dep

/-- A deployment whose pod template already carries a label, an annotation, a
container and a volume. -/
def usedDeployment : Deployment :=
  { Name := "ingress-operator"
    Namespace := "clusters-example"
    Spec := {
      Replicas := some 3
      Template := {
        Labels := some [("app", "legacy"), ("name", "other")]
        Annotations := some [("restarted-at", "yesterday")]
        Spec := {
          Containers := [{ Name := "sidecar", Image := "example/sidecar" }]
          Volumes := [{ Name := "scratch" }] } } } }

/-- A deployment with nothing set. -/
def emptyDeployment : Deployment := {}

/-- A parameter bundle with every image named. -/
def sampleParams : Params :=
  { IngressOperatorImage := "example/cluster-ingress-operator"
    HAProxyRouterImage := "example/haproxy-router"
    ReleaseVersion := "4.10.0"
    TokenMinterImage := "example/token-minter"
    AvailabilityProberImage := "example/availability-prober" }

/-! ## Lemmas on map writes -/

theorem bindKey_bindKey {V : Type} (kvs : List (String × V)) (k : String) (v : V) :
    bindKey (bindKey kvs k v) k v = bindKey kvs k v := by
  induction kvs with
  | nil => simp [bindKey]
  | cons e rest ih =>
    obtain ⟨k', v'⟩ := e
    by_cases h : k' = k
    · simp [bindKey, h]
    · simp [bindKey, h, ih]

theorem lookup_bindKey_self {V : Type} (kvs : List (String × V)) (k : String) (v : V) :
    (bindKey kvs k v).lookup k = some v := by
  induction kvs with
  | nil => simp [bindKey, List.lookup]
  | cons e rest ih =>
    obtain ⟨k', v'⟩ := e
    by_cases h : k' = k
    · simp [bindKey, h, List.lookup]
    · have h' : (k == k') = false := by simpa using fun e => h e.symm
      simp [bindKey, h, List.lookup, h', ih]

theorem lookup_bindKey_other {V : Type} (kvs : List (String × V)) (k j : String) (v : V)
    (hj : j ≠ k) : (bindKey kvs k v).lookup j = kvs.lookup j := by
  induction kvs with
  | nil =>
    have h' : (j == k) = false := by simpa using hj
    simp [bindKey, List.lookup, h']
  | cons e rest ih =>
    obtain ⟨k', v'⟩ := e
    by_cases h : k' = k
    · subst h
      have h' : (j == k') = false := by simpa using hj
      simp [bindKey, List.lookup, h']
    · simp only [bindKey, h, if_false, List.lookup]
      cases (j == k') <;> simp [ih]

theorem ensureAndSet_idem (m : GoMap String) (k v : String) :
    ensureAndSet (ensureAndSet m k v) k v = ensureAndSet m k v := by
  cases m <;> simp [ensureAndSet, bindKey_bindKey]

theorem get?_ensureAndSet_self (m : GoMap String) (k v : String) :
    (ensureAndSet m k v).get? k = some v := by
  cases m <;> simp [ensureAndSet, GoMap.get?, lookup_bindKey_self]

theorem get?_ensureAndSet_other (m : GoMap String) (k j v : String) (hj : j ≠ k) :
    (ensureAndSet m k v).get? j = m.get? j := by
  cases m with
  | none => simpa [ensureAndSet, GoMap.get?] using lookup_bindKey_other [] k j v hj
  | some kvs => simpa [ensureAndSet, GoMap.get?] using lookup_bindKey_other kvs k j v hj

theorem sameBindings_ensureAndSet (m1 m2 : GoMap String) (k v : String) :
    sameBindings (ensureAndSet m1 k v) (ensureAndSet m2 k v) ↔
      ∀ j, j ≠ k → m1.get? j = m2.get? j := by
  constructor
  · intro h j hj
    have hj' := h.2 j
    rwa [get?_ensureAndSet_other _ _ _ _ hj, get?_ensureAndSet_other _ _ _ _ hj] at hj'
  · intro h
    refine ⟨by cases m1 <;> cases m2 <;> rfl, fun j => ?_⟩
    by_cases hj : j = k
    · subst hj
      rw [get?_ensureAndSet_self, get?_ensureAndSet_self]
    · rw [get?_ensureAndSet_other _ _ _ _ hj, get?_ensureAndSet_other _ _ _ _ hj]
      exact h j hj

theorem withoutTemplateMeta_populate_eq_iff (ext : Collaborators) (params : Params)
    (apiPort : Option Int) (d1 d2 : Deployment) :
    withoutTemplateMeta (populate ext d1 params apiPort).Spec =
        withoutTemplateMeta (populate ext d2 params apiPort).Spec ↔
      withoutTemplateMeta (unassignedPart d1.Spec) =
        withoutTemplateMeta (unassignedPart d2.Spec) := by
  obtain ⟨n1, ns1, l1, a1, s1⟩ := d1
  obtain ⟨n2, ns2, l2, a2, s2⟩ := d2
  obtain ⟨r1, sel1, ⟨tn1, tns1, tl1, ta1, ⟨v1, i1, c1, nsl1, sa1, am1, pc1⟩⟩, ⟨ty1, ru1⟩,
    m1, rh1, pa1, pd1⟩ := s1
  obtain ⟨r2, sel2, ⟨tn2, tns2, tl2, ta2, ⟨v2, i2, c2, nsl2, sa2, am2, pc2⟩⟩, ⟨ty2, ru2⟩,
    m2, rh2, pa2, pd2⟩ := s2
  simp [populate, withoutTemplateMeta, unassignedPart]

theorem referencesResolve_of_wiring {cs cs' : List Container}
    (h : cs.map wiring = cs'.map wiring) (hr : ReferencesResolve cs') :
    ReferencesResolve cs := by
  obtain ⟨op, tm, rfl, hrest⟩ := hr
  rcases cs with _ | ⟨a, _ | ⟨b, _ | ⟨c, t⟩⟩⟩
  · simp at h
  · simp at h
  · simp only [List.map, List.cons.injEq, wiring, Prod.mk.injEq, and_true] at h
    obtain ⟨⟨hn1, hc1, ha1, he1, hv1⟩, ⟨hn2, hc2, ha2, he2, hv2⟩⟩ := h
    refine ⟨a, b, rfl, ?_⟩
    simp only [mountPathsOf] at hrest ⊢
    rw [hn1, hc1, he1, hv1, hn2, ha2, hv2]
    exact hrest
  · simp at h

theorem probingCollaborators_preservesWiring : PreservesWiring probingCollaborators := by
  refine ⟨fun _ _ _ _ => rfl, fun cfg dep => ?_⟩
  simp [containersOf, probingCollaborators, List.map_map, Function.comp_def, wiring]


/-! ## Theorems -/

/-- C1: the population step sets the command of the first container to the
fixed command line, whose last element renders the metrics port. -/
theorem C1_command_line (ext : Collaborators) (dep : Deployment) (params : Params)
    (apiPort : Option Int) :
    ∃ c rest, containersOf (populate ext dep params apiPort) = c :: rest ∧
      String.intercalate " " c.Command =
        "ingress-operator start --namespace openshift-ingress-operator --image $(IMAGE) --canary-image $(CANARY_IMAGE) --release-version $(RELEASE_VERSION) --metrics-listen-addr 0.0.0.0:60000" ∧
      c.Command.getLast? = some (sprintfListenAddr ingressOperatorMetricsPort) := by
  refine ⟨_, _, rfl, ?_, ?_⟩
  · show String.intercalate " " [_, _, _, _, _, _, _, _, _, _, _, _] = _
    rfl
  · rfl

/-- C2 (as stated, refuted): an init container of the input deployment is a
container of the pod template that the population step keeps, while the step
replaces the volume list; its mount `scratch` names no volume afterwards. -/
theorem C2_counterexample :
    ¬ (∀ c ∈ allContainersOf (populate inertCollaborators initDeployment sampleParams none),
        ∀ m ∈ c.VolumeMounts,
          m.Name ∈ (volumesOf (populate inertCollaborators initDeployment sampleParams
            none)).map (fun v => v.Name)) := by
  decide

/-- C2 (amended): after the population step every volume mount of every
container of the container list names a volume of the pod template, the mount
names of these containers are the three named ones, and the volume names are
pairwise distinct; the init containers are those of the input, so every mount of
every container of the pod template names a volume exactly when every mount of
the input's init containers names one of the three volumes. -/
theorem C2_mounts_name_volumes (ext : Collaborators) (dep : Deployment) (params : Params)
    (apiPort : Option Int) :
    (∀ c ∈ containersOf (populate ext dep params apiPort), ∀ m ∈ c.VolumeMounts,
      m.Name ∈ (volumesOf (populate ext dep params apiPort)).map (fun v => v.Name)) ∧
    (∀ n, n ∈ (containersOf (populate ext dep params apiPort)).flatMap
          (fun c => c.VolumeMounts.map (fun m => m.Name)) ↔
        n ∈ ["ingress-operator-kubeconfig", "serviceaccount-token", "admin-kubeconfig"]) ∧
    ((volumesOf (populate ext dep params apiPort)).map (fun v => v.Name)).Nodup ∧
    (populate ext dep params apiPort).Spec.Template.Spec.InitContainers =
      dep.Spec.Template.Spec.InitContainers ∧
    ((∀ c ∈ allContainersOf (populate ext dep params apiPort), ∀ m ∈ c.VolumeMounts,
        m.Name ∈ (volumesOf (populate ext dep params apiPort)).map (fun v => v.Name)) ↔
      (∀ c ∈ dep.Spec.Template.Spec.InitContainers, ∀ m ∈ c.VolumeMounts,
        m.Name ∈ ["serviceaccount-token", "admin-kubeconfig", "ingress-operator-kubeconfig"])) := by
  have ha : ∀ c ∈ containersOf (populate ext dep params apiPort), ∀ m ∈ c.VolumeMounts,
      m.Name ∈ (volumesOf (populate ext dep params apiPort)).map (fun v => v.Name) := by
    simp [containersOf, volumesOf, populate, reconcileContainers, reconcileVolumes]
  have hv : (volumesOf (populate ext dep params apiPort)).map (fun v => v.Name) =
      ["serviceaccount-token", "admin-kubeconfig", "ingress-operator-kubeconfig"] := rfl
  have hi : allContainersOf (populate ext dep params apiPort) =
      dep.Spec.Template.Spec.InitContainers ++ containersOf (populate ext dep params apiPort) :=
    rfl
  refine ⟨ha, ?_, ?_, rfl, ?_⟩
  · intro n
    simp [containersOf, populate, reconcileContainers]
  · simp [volumesOf, populate, reconcileVolumes]
  · rw [hi]
    constructor
    · intro h c hc
      rw [← hv]
      exact h c (List.mem_append_left _ hc)
    · intro h c hc
      rcases List.mem_append.1 hc with hc | hc
      · rw [hv]
        exact h c hc
      · exact ha c hc


/-- C3 (as stated, refuted): two input deployments that differ in the labels of
the pod template give different deployment specs, also when maps are compared by
their bindings; the label `app` of the used deployment is still bound in its
result and is unbound in the other. -/
theorem C3_counterexample :
    (populate inertCollaborators usedDeployment sampleParams none).Spec ≠
        (populate inertCollaborators emptyDeployment sampleParams none).Spec ∧
      ¬ sameSpec (populate inertCollaborators usedDeployment sampleParams none).Spec
        (populate inertCollaborators emptyDeployment sampleParams none).Spec ∧
      (populate inertCollaborators usedDeployment sampleParams none).Spec.Template.Labels.get? "app"
        = some "legacy" ∧
      (populate inertCollaborators emptyDeployment sampleParams none).Spec.Template.Labels.get? "app"
        = none := by
  refine ⟨?_, ?_, by decide, by decide⟩
  · intro h
    have h2 := congrArg (fun s => s.Template.Labels.get? "app") h
    revert h2
    decide
  · intro h
    have h2 := h.2.1.2 "app"
    revert h2
    decide

/-- C3 (amended): the deployment specs that the population step produces from
two input deployments are equal, maps compared by their bindings, exactly when
the inputs agree on every annotation of the pod template but the management
annotation, on every label of the pod template but `name`, and on the fields of
the spec that the step does not assign.  The replicas, selector, strategy type,
automount flag, containers and volumes of the inputs, their bindings of the two
written keys, and whether their annotation and label maps were nil or empty
have no part in it. -/
theorem C3_spec_equal_iff (ext : Collaborators) (params : Params)
    (apiPort : Option Int) (d1 d2 : Deployment) :
    sameSpec (populate ext d1 params apiPort).Spec (populate ext d2 params apiPort).Spec ↔
      ((∀ k, k ≠ "target.workload.openshift.io/management" →
          d1.Spec.Template.Annotations.get? k = d2.Spec.Template.Annotations.get? k) ∧
        (∀ k, k ≠ "name" →
          d1.Spec.Template.Labels.get? k = d2.Spec.Template.Labels.get? k) ∧
        withoutTemplateMeta (unassignedPart d1.Spec) =
          withoutTemplateMeta (unassignedPart d2.Spec)) := by
  have hA : sameBindings (populate ext d1 params apiPort).Spec.Template.Annotations
        (populate ext d2 params apiPort).Spec.Template.Annotations ↔
      ∀ k, k ≠ "target.workload.openshift.io/management" →
        d1.Spec.Template.Annotations.get? k = d2.Spec.Template.Annotations.get? k :=
    sameBindings_ensureAndSet _ _ _ _
  have hL : sameBindings (populate ext d1 params apiPort).Spec.Template.Labels
        (populate ext d2 params apiPort).Spec.Template.Labels ↔
      ∀ k, k ≠ "name" →
        d1.Spec.Template.Labels.get? k = d2.Spec.Template.Labels.get? k :=
    sameBindings_ensureAndSet _ _ _ _
  unfold sameSpec
  rw [hA, hL, withoutTemplateMeta_populate_eq_iff]

/-- C3 (amended), at concrete inputs: an empty deployment and a stale one (empty
annotations, another `name` label, other replicas, selector, strategy type,
containers and volumes) agree outside of what the step writes, so their specs
after the step are equal. -/
theorem C3_spec_equal_iff_witness :
    ((∀ k, k ≠ "target.workload.openshift.io/management" →
          emptyDeployment.Spec.Template.Annotations.get? k =
            staleDeployment.Spec.Template.Annotations.get? k) ∧
        (∀ k, k ≠ "name" →
          emptyDeployment.Spec.Template.Labels.get? k =
            staleDeployment.Spec.Template.Labels.get? k) ∧
        withoutTemplateMeta (unassignedPart emptyDeployment.Spec) =
          withoutTemplateMeta (unassignedPart staleDeployment.Spec)) ∧
      sameSpec (populate inertCollaborators emptyDeployment sampleParams none).Spec
        (populate inertCollaborators staleDeployment sampleParams none).Spec :=
  have h : (∀ k, k ≠ "target.workload.openshift.io/management" →
          emptyDeployment.Spec.Template.Annotations.get? k =
            staleDeployment.Spec.Template.Annotations.get? k) ∧
        (∀ k, k ≠ "name" →
          emptyDeployment.Spec.Template.Labels.get? k =
            staleDeployment.Spec.Template.Labels.get? k) ∧
        withoutTemplateMeta (unassignedPart emptyDeployment.Spec) =
          withoutTemplateMeta (unassignedPart staleDeployment.Spec) := by
    refine ⟨fun k _ => rfl, fun k hk => ?_, by decide⟩
    have hb : (k == "name") = false := by simpa using hk
    simp [emptyDeployment, staleDeployment, GoMap.get?, List.lookup, hb]
  ⟨h, (C3_spec_equal_iff inertCollaborators sampleParams none emptyDeployment
    staleDeployment).mpr h⟩


/-- C4: the population step sets the container list to the two containers
`ingress-operator` and `token-minter`, in this order, with the images of the
parameter bundle, and the volume list to the three named volumes, in order; the
containers and volumes of the input deployment have no part in the result. -/
theorem C4_containers_and_volumes (ext : Collaborators) (dep : Deployment) (params : Params)
    (apiPort : Option Int) :
    (containersOf (populate ext dep params apiPort)).map (fun c => (c.Name, c.Image)) =
        [("ingress-operator", params.IngressOperatorImage),
         ("token-minter", params.TokenMinterImage)] ∧
      (volumesOf (populate ext dep params apiPort)).map (fun v => v.Name) =
        ["serviceaccount-token", "admin-kubeconfig", "ingress-operator-kubeconfig"] ∧
      (∀ dep' : Deployment,
        containersOf (populate ext dep' params apiPort) =
            containersOf (populate ext dep params apiPort) ∧
          volumesOf (populate ext dep' params apiPort) =
            volumesOf (populate ext dep params apiPort)) :=
  ⟨rfl, rfl, fun _ => ⟨rfl, rfl⟩⟩

/-- C5: the population step gives the one container named `ingress-operator` the
four environment variables RELEASE_VERSION, IMAGE, CANARY_IMAGE and KUBECONFIG,
in this order, the first three valued from the parameter bundle and the fourth
with the literal path. -/
theorem C5_operator_env (ext : Collaborators) (dep : Deployment) (params : Params)
    (apiPort : Option Int) :
    ((containersOf (populate ext dep params apiPort)).filter
        (fun c => c.Name = "ingress-operator")).map (fun c => c.Env) =
      [[{ Name := "RELEASE_VERSION", Value := params.ReleaseVersion },
        { Name := "IMAGE", Value := params.HAProxyRouterImage },
        { Name := "CANARY_IMAGE", Value := params.IngressOperatorImage },
        { Name := "KUBECONFIG", Value := "/etc/kubernetes/kubeconfig" }]] := by
  simp [containersOf, populate, reconcileContainers, ingressOperatorContainerName]

/-- C6: for every hosted control plane `NewParams` returns a parameter bundle
whose readiness and liveness probe maps bind the one key `ingress-operator` to
an HTTP GET of `/metrics` on port 60000 with the stated timings; the port of
each probe is the one rendered after `--metrics-listen-addr` in the command of
the first container, and the key is the name of that container. -/
theorem C6_probes (ext : Collaborators) (hcp : HostedControlPlane) (version : String)
    (images : GoMap String) (setDefaultSecurityContext : Bool) :
    ∃ p, NewParams ext (some hcp) version images setDefaultSecurityContext = some p ∧
      p.DeploymentConfig.ReadinessProbes = some [("ingress-operator",
        { ProbeHandler := {
            HTTPGet := some { Path := "/metrics", Port := .int 60000, Host := "", Scheme := "HTTP" } }
          InitialDelaySeconds := 15
          PeriodSeconds := 60
          SuccessThreshold := 1
          FailureThreshold := 3
          TimeoutSeconds := 5 })] ∧
      p.DeploymentConfig.LivenessProbes = some [("ingress-operator",
        { ProbeHandler := {
            HTTPGet := some { Path := "/metrics", Port := .int 60000, Host := "", Scheme := "HTTP" } }
          InitialDelaySeconds := 60
          PeriodSeconds := 60
          SuccessThreshold := 1
          FailureThreshold := 5
          TimeoutSeconds := 5 })] ∧
      ∀ (dep : Deployment) (apiPort : Option Int), ∃ c rest,
        containersOf (populate ext dep p apiPort) = c :: rest ∧
        p.DeploymentConfig.ReadinessProbes.keys = [c.Name] ∧
        p.DeploymentConfig.LivenessProbes.keys = [c.Name] ∧
        ∀ kv ∈ p.DeploymentConfig.ReadinessProbes.getD [] ++
            p.DeploymentConfig.LivenessProbes.getD [],
          ∃ n : Int, kv.2.ProbeHandler.HTTPGet.map (fun g => g.Port) = some (.int n) ∧
            argAfter "--metrics-listen-addr" c.Command = some ("0.0.0.0:" ++ toString n) := by
  refine ⟨_, rfl, rfl, rfl, fun dep apiPort => ⟨_, _, rfl, rfl, rfl, ?_⟩⟩
  intro kv hkv
  refine ⟨60000, ?_, rfl⟩
  simp only [Option.getD, List.cons_append, List.nil_append, List.mem_cons,
    List.mem_singleton, List.not_mem_nil, or_false] at hkv
  rcases hkv with h | h <;> subst h <;> rfl

/-- C7: for a non-nil hosted control plane, any version and any images map (nil,
empty or short of keys) `NewParams` returns a parameter bundle; its four images
are the entries of the map at the four keys, the empty string standing for an
absent key, its release version is the version argument and its replica count
is 1. -/
theorem C7_image_lookup (ext : Collaborators) (hcp : HostedControlPlane) (version : String)
    (images : GoMap String) (setDefaultSecurityContext : Bool) :
    ∃ p, NewParams ext (some hcp) version images setDefaultSecurityContext = some p ∧
      p.IngressOperatorImage = (images.get? "cluster-ingress-operator").getD "" ∧
      p.HAProxyRouterImage = (images.get? "haproxy-router").getD "" ∧
      p.TokenMinterImage = (images.get? "token-minter").getD "" ∧
      p.AvailabilityProberImage = (images.get? ext.AvailabilityProberImageName).getD "" ∧
      p.ReleaseVersion = version ∧
      p.DeploymentConfig.Replicas = 1 :=
  ⟨_, rfl, rfl, rfl, rfl, rfl, rfl, rfl⟩

/-- C8: after the population step the selector matches exactly the label
`name = ingress-operator`, every pair of the selector is a label of the pod
template, and the management annotation of the pod template is bound to the
preferred-during-scheduling effect, whatever labels and annotations (nil maps
included) the input deployment had. -/
theorem C8_selector_matches_template (ext : Collaborators) (dep : Deployment) (params : Params)
    (apiPort : Option Int) :
    (populate ext dep params apiPort).Spec.Selector =
        some { MatchLabels := some [("name", "ingress-operator")], MatchExpressions := [] } ∧
      (∀ sel, (populate ext dep params apiPort).Spec.Selector = some sel →
        ∀ k v, sel.MatchLabels.get? k = some v →
          (populate ext dep params apiPort).Spec.Template.Labels.get? k = some v) ∧
      (populate ext dep params apiPort).Spec.Template.Annotations.get?
          "target.workload.openshift.io/management" =
        some "\x7b\"effect\": \"PreferredDuringScheduling\"\x7d" := by
  refine ⟨rfl, ?_, ?_⟩
  · intro sel hsel k v hkv
    have hs : sel = { MatchLabels := some [("name", "ingress-operator")], MatchExpressions := [] } :=
      (Option.some.inj hsel).symm
    subst hs
    by_cases hk : k = "name"
    · subst hk
      have hv : v = "ingress-operator" := by
        simpa [GoMap.get?, List.lookup] using hkv.symm
      subst hv
      exact get?_ensureAndSet_self _ _ _
    · have hb : (k == "name") = false := by simpa using hk
      simp [GoMap.get?, List.lookup, hb] at hkv
  · exact get?_ensureAndSet_self _ _ _

/-- C9: the population step is idempotent, and both one and two applications
keep every annotation and every label of the input pod template whose key is
not the one the step writes. -/
theorem C9_populate_idempotent (ext : Collaborators) (dep : Deployment) (params : Params)
    (apiPort : Option Int) :
    populate ext (populate ext dep params apiPort) params apiPort =
        populate ext dep params apiPort ∧
      (∀ k, k ≠ "target.workload.openshift.io/management" →
        (populate ext dep params apiPort).Spec.Template.Annotations.get? k =
            dep.Spec.Template.Annotations.get? k ∧
          (populate ext (populate ext dep params apiPort) params
              apiPort).Spec.Template.Annotations.get? k =
            dep.Spec.Template.Annotations.get? k) ∧
      (∀ k, k ≠ "name" →
        (populate ext dep params apiPort).Spec.Template.Labels.get? k =
            dep.Spec.Template.Labels.get? k ∧
          (populate ext (populate ext dep params apiPort) params
              apiPort).Spec.Template.Labels.get? k =
            dep.Spec.Template.Labels.get? k) := by
  have hidem : populate ext (populate ext dep params apiPort) params apiPort =
      populate ext dep params apiPort := by
    simp [populate, ensureAndSet_idem]
  refine ⟨hidem, ?_, ?_⟩
  · intro k hk
    have h1 : (populate ext dep params apiPort).Spec.Template.Annotations.get? k =
        dep.Spec.Template.Annotations.get? k := get?_ensureAndSet_other _ _ _ _ hk
    exact ⟨h1, by rw [hidem]; exact h1⟩
  · intro k hk
    have h1 : (populate ext dep params apiPort).Spec.Template.Labels.get? k =
        dep.Spec.Template.Labels.get? k := get?_ensureAndSet_other _ _ _ _ hk
    exact ⟨h1, by rw [hidem]; exact h1⟩

/-- C10: when the availability prober and the configuration applier keep the
container list and the name, command, arguments, environment and mounts of each
container, the containers that `ReconcileDeployment` produces, like those of its
population step, have resolving references: the `$(NAME)` elements of the
`ingress-operator` command are IMAGE, CANARY_IMAGE and RELEASE_VERSION, each a
variable of its environment; its KUBECONFIG path lies under its mount
`/etc/kubernetes`; the `-token-file` and `-kubeconfig` paths of `token-minter`
lie under its mounts; and both containers mount the volume
`serviceaccount-token` at the same path. -/
theorem C10_references_resolve (ext : Collaborators) (dep : Deployment) (params : Params)
    (apiPort : Option Int) (hext : PreservesWiring ext) :
    ReferencesResolve (containersOf (populate ext dep params apiPort)) ∧
      ReferencesResolve (containersOf (ReconcileDeployment ext dep params apiPort)) := by
  have hp : ReferencesResolve (containersOf (populate ext dep params apiPort)) := by
    refine ⟨_, _, rfl, rfl, rfl, ?_, ?_, ?_, ?_, ?_, ?_, ?_, ?_, ?_, ?_, ?_, ?_⟩
    · rfl
    · intro n hn
      have hc : List.filterMap envRef? ["ingress-operator", "start", "--namespace",
          "openshift-ingress-operator", "--image", "$(IMAGE)", "--canary-image",
          "$(CANARY_IMAGE)", "--release-version", "$(RELEASE_VERSION)", "--metrics-listen-addr",
          sprintfListenAddr ingressOperatorMetricsPort] =
          ["IMAGE", "CANARY_IMAGE", "RELEASE_VERSION"] := by decide
      simp only [hc] at hn
      simp at hn ⊢
      tauto
    · simp
    · simp
    · decide
    · rfl
    · simp
    · decide
    · rfl
    · simp
    · simp [mountPathsOf]
    · simp [mountPathsOf]
  refine ⟨hp, referencesResolve_of_wiring ?_ hp⟩
  unfold ReconcileDeployment
  rw [hext.2]
  exact hext.1 _ _ _ _

/-- C10, at concrete inputs: collaborators that add an init container and set
probes keep the wiring of the containers, and the containers produced from the
used deployment have resolving references. -/
theorem C10_references_resolve_witness :
    PreservesWiring probingCollaborators ∧
      ReferencesResolve (containersOf (populate probingCollaborators usedDeployment
        sampleParams (some 6443))) ∧
      ReferencesResolve (containersOf (ReconcileDeployment probingCollaborators usedDeployment
        sampleParams (some 6443))) :=
  ⟨probingCollaborators_preservesWiring,
    C10_references_resolve probingCollaborators usedDeployment sampleParams (some 6443)
      probingCollaborators_preservesWiring⟩

end ingressoperator
